import Mathlib

/- Verification development for the tobii_g3 control-plane client
   (src/tobii_g3/g3.py): the zeroconf discovery listener, the discovery
   procedure discover_g3, the websocket connection lifecycle, and the four
   primitive request/response operations of G3Client. -/

namespace TobiiG3

/-- JSON values as decoded by json.loads. JSON numbers are modelled as
integers; the ids and the claim-relevant bodies of the protocol are
integers, booleans, strings, arrays and objects. -/
inductive JsonVal where
  | jnull
  | jbool (b : Bool)
  | jint (n : Int)
  | jstr (s : String)
  | jarr (elems : List JsonVal)
  | jobj (fields : List (String × JsonVal))

/-- A decoded JSON object (a Python dict): an ordered association list
with distinct keys; lookup returns the first matching key. -/
abbrev Obj := List (String × JsonVal)

/-- Dictionary lookup, d[k], returning none where Python raises KeyError. -/
def lookupKey : Obj → String → Option JsonVal
  | [], _ => none
  | (k, v) :: rest, key => if k = key then some v else lookupKey rest key

/-- Membership test, k in d. -/
def hasKey (o : Obj) (k : String) : Bool :=
  (lookupKey o k).isSome

/-- Python equality between a decoded response id and the integer request
id: ints compare by value and bools compare as their int values 1 and 0
(True == 1 holds in Python); no other JSON type equals an int. -/
def pyEqInt : JsonVal → Int → Bool
  | JsonVal.jint n, m => n == m
  | JsonVal.jbool b, m => (if b then (1 : Int) else 0) == m
  | _, _ => false

/-- One zeroconf service announcement as consumed by
ZeroconfListener.add_service when get_service_info returns a truthy
info: the info.server name and the list info.parsed_scoped_addresses(). -/
structure Announcement where
  server : String
  addrs : List String

/-- The three accumulating lists of ZeroconfListener (g3.py:28-30). In
the source these are class attributes (_discovered_ips,
_discovered_ipv6s, _discovered_servers): every listener instance shares
the same three lists, which live for the whole process and are never
reset by discover_g3. -/
structure ListenerState where
  ips : List String
  ipv6s : List String
  servers : List String

/-- Content of the class-level lists before any announcement was ever
delivered (a fresh process). -/
def emptyListener : ListenerState :=
  { ips := [], ipv6s := [], servers := [] }

/-- add_service (g3.py:48-49) strips one trailing dot from info.server:
when the last character, server[-1], is a dot, keep server[:-1]. The
source would raise IndexError on the empty string, which zeroconf never
produces; here the empty string is returned unchanged. -/
def stripDot (server : String) : String :=
  match server.data.getLast? with
  | some c => if c = '.' then String.mk server.data.dropLast else server
  | none => server

/-- The address loop of add_service (g3.py:52-57): an address not already
recorded is appended to the ipv4 list when is_ipv4 accepts it, else to
the ipv6 list when not already recorded there. is_ipv4 (g3.py:70-75)
delegates to the Python ipaddress standard library, an external
collaborator, so it is a parameter of the model. -/
def addIps (isV4 : String → Bool) (st : ListenerState) : List String → ListenerState
  | [] => st
  | ip :: rest =>
    if !(st.ips.contains ip) && isV4 ip then
      addIps isV4 { st with ips := st.ips ++ [ip] } rest
    else if !(st.ipv6s.contains ip) && !(isV4 ip) then
      addIps isV4 { st with ipv6s := st.ipv6s ++ [ip] } rest
    else
      addIps isV4 st rest

/-- ZeroconfListener.add_service (g3.py:44-57) for an announcement whose
get_service_info returned a truthy info: the dot-stripped server name is
appended unconditionally to the servers list, then the addresses are
accumulated by the address loop. -/
def add_service (isV4 : String → Bool) (st : ListenerState) (ann : Announcement) : ListenerState :=
  addIps isV4 { st with servers := st.servers ++ [stripDot ann.server] } ann.addrs

/-- All announcements delivered to the listener during one discovery
scan, applied in arrival order to the (shared, class-level) listener
state. -/
def runScan (isV4 : String → Bool) (st : ListenerState) (anns : List Announcement) : ListenerState :=
  anns.foldl (add_service isV4) st

/-- Fixed access-point address probed first by discover_g3 (g3.py:142). -/
def default_wifi_ip : String := "192.168.75.51"

/-- G3Client.discover_g3 (g3.py:186-230). probeOk tells whether the
short-timeout HTTP GET against the fixed access-point address answered
res.ok; classState is the content of the class-level listener lists when
the call starts (shared across calls, see ListenerState); anns are the
announcements delivered during this call. Returns the resolved address
(none when nothing is available) and the class-level state the call
leaves behind for later calls. -/
def discover_g3 (isV4 : String → Bool) (probeOk : Bool)
    (classState : ListenerState) (anns : List Announcement) :
    Option String × ListenerState :=
  if probeOk then (some default_wifi_ip, classState)
  else
    let final := runScan isV4 classState anns
    match final.servers.getLast? with
    | some s => (some s, final)
    | none =>
      match final.ips.getLast? with
      | some ip => (some ip, final)
      | none => (none, final)

/-- A request envelope as built by the _request helpers of G3Client; the
json.dumps serialization sent on the wire is kept structural. A GET
request has no body key (body := none). -/
structure ReqEnvelope where
  path : String
  id : Int
  method : String
  body : Option JsonVal

/-- The G3Client state touched by the claims: the _id counter
(g3.py:152), the websocket liveness flag, and the trace of frames handed
to ws.send. -/
structure ClientState where
  _id : Int
  connected : Bool
  sent : List ReqEnvelope

/-- State of a G3Client right after the constructor (g3.py:145-153):
counter 0, fresh unconnected websocket, nothing sent. -/
def freshClient : ClientState :=
  { _id := 0, connected := false, sent := [] }

/-- Outcome of a primitive call: the returned body, or the exception the
call raises (G3NotConnectedError, G3InvalidIdError, G3ErrorResponse, or
a Python KeyError from a missing dictionary key). -/
inductive G3Outcome where
  | ok (body : JsonVal)
  | notConnected
  | invalidId
  | errorResponse
  | keyError

/-- G3Client._generate_ws_id (g3.py:253-256): increment the counter,
reduce it modulo 1024, return it. Lean Int.emod agrees with the Python
percent operator on a positive modulus. -/
def _generate_ws_id (st : ClientState) : ClientState × Int :=
  let i := (st._id + 1) % 1024
  ({ st with _id := i }, i)

/-- G3Client._ws_send (g3.py:266-271) together with its
requires_connection wrapper (g3.py:114-124): without a live connection
G3NotConnectedError is raised before anything is sent; with one, the
frame goes out. The closed-transport race that raises G3ConnectionError
is a property of the external socket and is not claimed, so a connected
send succeeds here. -/
def _ws_send (st : ClientState) (env : ReqEnvelope) : ClientState × Option G3Outcome :=
  if st.connected then ({ st with sent := st.sent ++ [env] }, none)
  else (st, some G3Outcome.notConnected)

/-- G3Client._request_property (g3.py:273-278): generate the id, build
the GET envelope (path with a dot sigil, no body key), send it. The id
counter is advanced before the connection check in _ws_send can raise. -/
def _request_property (st : ClientState) (parent_path property_name : String) :
    ClientState × Except G3Outcome ReqEnvelope :=
  let p := _generate_ws_id st
  let env : ReqEnvelope :=
    { path := parent_path ++ "." ++ property_name, id := p.2, method := "GET", body := none }
  match _ws_send p.1 env with
  | (st2, none) => (st2, Except.ok env)
  | (st2, some e) => (st2, Except.error e)

/-- G3Client._request_set_property (g3.py:308-320): POST envelope with
the dot sigil and the given value as body. -/
def _request_set_property (st : ClientState) (parent_path property_name : String)
    (value : JsonVal) : ClientState × Except G3Outcome ReqEnvelope :=
  let p := _generate_ws_id st
  let env : ReqEnvelope :=
    { path := parent_path ++ "." ++ property_name, id := p.2, method := "POST",
      body := some value }
  match _ws_send p.1 env with
  | (st2, none) => (st2, Except.ok env)
  | (st2, some e) => (st2, Except.error e)

/-- G3Client._request_action (g3.py:357-372): POST envelope with the bang
sigil; a missing action_val defaults to the empty list. -/
def _request_action (st : ClientState) (parent_path action_name : String)
    (action_val : Option (List JsonVal)) : ClientState × Except G3Outcome ReqEnvelope :=
  let v := action_val.getD []
  let p := _generate_ws_id st
  let env : ReqEnvelope :=
    { path := parent_path ++ "!" ++ action_name, id := p.2, method := "POST",
      body := some (JsonVal.jarr v) }
  match _ws_send p.1 env with
  | (st2, none) => (st2, Except.ok env)
  | (st2, some e) => (st2, Except.error e)

/-- G3Client._request_subscribe_signal (g3.py:470-480): POST envelope
with the colon sigil and an empty array body. -/
def _request_subscribe_signal (st : ClientState) (parent_path signal_name : String) :
    ClientState × Except G3Outcome ReqEnvelope :=
  let p := _generate_ws_id st
  let env : ReqEnvelope :=
    { path := parent_path ++ ":" ++ signal_name, id := p.2, method := "POST",
      body := some (JsonVal.jarr []) }
  match _ws_send p.1 env with
  | (st2, none) => (st2, Except.ok env)
  | (st2, some e) => (st2, Except.error e)

/-- Body extraction shared by get_property, set_property and send_action
(g3.py:296-299, 340-343, 394-397): the body key when present, the whole
envelope otherwise. -/
def extractBody (response : Obj) : JsonVal :=
  match lookupKey response "body" with
  | some b => b
  | none => JsonVal.jobj response

/-- G3Client.get_property (g3.py:280-306): send the GET request, receive
one decoded response frame, extract the body (whole-envelope fallback),
return the body when the response id equals the request id and raise
G3InvalidIdError otherwise. A response without an id key raises KeyError
at the comparison. -/
def get_property (st : ClientState) (parent_path property_name : String)
    (response : Obj) : ClientState × G3Outcome :=
  match _request_property st parent_path property_name with
  | (st1, Except.error e) => (st1, e)
  | (st1, Except.ok req) =>
    let body := extractBody response
    match lookupKey response "id" with
    | none => (st1, G3Outcome.keyError)
    | some rid =>
      if pyEqInt rid req.id then (st1, G3Outcome.ok body)
      else (st1, G3Outcome.invalidId)

/-- G3Client.set_property (g3.py:322-355): send the POST request, extract
the body (whole-envelope fallback), raise G3InvalidIdError on an id
mismatch, raise G3ErrorResponse when the body is the boolean False
(Python is-identity, so the integer 0 does not trigger it), else return
the body. -/
def set_property (st : ClientState) (parent_path property_name : String)
    (value : JsonVal) (response : Obj) : ClientState × G3Outcome :=
  match _request_set_property st parent_path property_name value with
  | (st1, Except.error e) => (st1, e)
  | (st1, Except.ok req) =>
    let body := extractBody response
    match lookupKey response "id" with
    | none => (st1, G3Outcome.keyError)
    | some rid =>
      if !(pyEqInt rid req.id) then (st1, G3Outcome.invalidId)
      else
        match body with
        | JsonVal.jbool false => (st1, G3Outcome.errorResponse)
        | _ => (st1, G3Outcome.ok body)

/-- G3Client.send_action (g3.py:374-419): send the POST request, extract
the body (whole-envelope fallback), raise G3InvalidIdError on an id
mismatch; then, in order, raise G3ErrorResponse when error_info is
present, look at the error key (whose branch reads response with the
message key, so a response carrying error without message raises
KeyError while the diagnostic string is built), raise G3ErrorResponse
when the body is the boolean False, else return the body. -/
def send_action (st : ClientState) (parent_path action_name : String)
    (action_val : Option (List JsonVal)) (response : Obj) : ClientState × G3Outcome :=
  match _request_action st parent_path action_name action_val with
  | (st1, Except.error e) => (st1, e)
  | (st1, Except.ok req) =>
    let body := extractBody response
    match lookupKey response "id" with
    | none => (st1, G3Outcome.keyError)
    | some rid =>
      if !(pyEqInt rid req.id) then (st1, G3Outcome.invalidId)
      else if hasKey response "error_info" then (st1, G3Outcome.errorResponse)
      else if hasKey response "error" then
        if hasKey response "message" then (st1, G3Outcome.errorResponse)
        else (st1, G3Outcome.keyError)
      else
        match body with
        | JsonVal.jbool false => (st1, G3Outcome.errorResponse)
        | _ => (st1, G3Outcome.ok body)

/-- G3Client.subscribe_signal (g3.py:482-503): send the POST request,
then read response with the body key unconditionally (no whole-envelope
fallback: a response without a body key raises KeyError), then raise
G3InvalidIdError on an id mismatch, else return the body. -/
def subscribe_signal (st : ClientState) (parent_path signal_name : String)
    (response : Obj) : ClientState × G3Outcome :=
  match _request_subscribe_signal st parent_path signal_name with
  | (st1, Except.error e) => (st1, e)
  | (st1, Except.ok req) =>
    match lookupKey response "body" with
    | none => (st1, G3Outcome.keyError)
    | some body =>
      match lookupKey response "id" with
      | none => (st1, G3Outcome.keyError)
      | some rid =>
        if !(pyEqInt rid req.id) then (st1, G3Outcome.invalidId)
        else (st1, G3Outcome.ok body)

/-- Client state after n calls to _generate_ws_id on a freshly
constructed client. -/
def clientAfter : Nat → ClientState
  | 0 => freshClient
  | n + 1 => (_generate_ws_id (clientAfter n)).1

/-- Identifier returned by the n-th call to _generate_ws_id on a freshly
constructed client (the call returns the updated counter, so this is the
counter after n calls). -/
def wsIdAt (n : Nat) : Int :=
  (clientAfter n)._id

/-- State of the websocket transport: the websocket-client library sets
connected only after a completed opening handshake; url and subprotocols
record the negotiation of the current connection. -/
structure WSState where
  connected : Bool
  url : Option String
  subprotocols : Option (List String)

/-- A websocket with no live connection. -/
def closedWS : WSState :=
  { connected := false, url := none, subprotocols := none }

/-- Whether the underlying ws.connect attempt completes its handshake or
hits WebSocketTimeoutException; decided by the network, so an input of
the model. -/
inductive ConnectAttempt where
  | success
  | timeout

/-- Transport boundary, modelled from the websocket-client library:
ws.connect either completes the handshake, making the socket connected
with the requested url and subprotocol list, or raises the timeout
exception with the connected flag still false (the flag is set only
after the handshake completes). The Bool reports whether the timeout
exception was raised. -/
def wsConnect (ws : WSState) (u : String) (protos : List String) :
    ConnectAttempt → WSState × Bool
  | ConnectAttempt.success =>
    ({ connected := true, url := some u, subprotocols := some protos }, false)
  | ConnectAttempt.timeout =>
    ({ ws with connected := false }, true)

/-- G3Client.ws_url (g3.py:169-179). -/
def ws_url (glasses_address : String) : String :=
  "ws://" ++ glasses_address ++ "/websocket/"

/-- Result of G3Client.connect: normal return or G3TimeoutError. -/
inductive ConnectResult where
  | ok
  | timeoutError

/-- G3Client.connect (g3.py:232-246): close any live connection first,
then connect the socket to ws_url with the single subprotocol g3api,
turning the transport timeout exception into G3TimeoutError. -/
def connect (ws : WSState) (glasses_address : String) (outcome : ConnectAttempt) :
    WSState × ConnectResult :=
  let ws1 := if ws.connected then closedWS else ws
  match wsConnect ws1 (ws_url glasses_address) ["g3api"] outcome with
  | (ws2, false) => (ws2, ConnectResult.ok)
  | (ws2, true) => (ws2, ConnectResult.timeoutError)

/-- Specification-side accumulator for claim C4: append an element only
when it is not yet present. -/
def firstSeenInsert (xs : List String) (x : String) : List String :=
  if xs.contains x then xs else xs ++ [x]

/-- Specification-side description of an ordered set in first-seen
order: the distinct elements of xs, each at the position of its first
occurrence. -/
def firstSeenDedup (xs : List String) : List String :=
  xs.foldl firstSeenInsert []

/-- A client state with a live connection, counter 0 and nothing sent
yet, used to evaluate the primitives on concrete responses. -/
def connectedClient : ClientState :=
  { _id := 0, connected := true, sent := [] }

/-- The identifier after n calls is exactly n reduced modulo 1024. -/
theorem wsIdAt_eq (n : Nat) : wsIdAt n = (n : Int) % 1024 := by
  induction n with
  | zero => simp [wsIdAt, clientAfter, freshClient]
  | succ k ih =>
    simp only [wsIdAt, clientAfter, _generate_ws_id] at *
    omega

/-- C1: on a freshly constructed client the n-th call to _generate_ws_id
returns n mod 1024: the first identifier is 1, each identifier is the
predecessor plus one reduced modulo 1024, and no identifier repeats
within any window of 1024 consecutive calls. -/
theorem generate_ws_id_counter_mod_1024 :
    wsIdAt 1 = 1 ∧
    (∀ n : Nat, 1 ≤ n → wsIdAt n = (n : Int) % 1024) ∧
    (∀ n : Nat, wsIdAt (n + 1) = (wsIdAt n + 1) % 1024) ∧
    (∀ m n : Nat, 1 ≤ m → m < n → n < m + 1024 → wsIdAt m ≠ wsIdAt n) := by
  refine ⟨by rw [wsIdAt_eq]; rfl, fun n _ => wsIdAt_eq n, fun n => ?_, fun m n h1 h2 h3 => ?_⟩
  · rw [wsIdAt_eq, wsIdAt_eq]; omega
  · rw [wsIdAt_eq, wsIdAt_eq]; omega

theorem generate_ws_id_counter_mod_1024_witness :
    wsIdAt 5 = (5 : Int) % 1024 ∧ wsIdAt 2 ≠ wsIdAt 3 :=
  ⟨generate_ws_id_counter_mod_1024.2.1 5 (by decide),
   generate_ws_id_counter_mod_1024.2.2.2 2 3 (by decide) (by decide) (by decide)⟩

/-- C10: a primitive call without a live connection raises
G3NotConnectedError and sends nothing, but the id counter has already
been advanced by one, so the next identifier the client would generate
differs from the one generated in a history without the failed call. -/
theorem not_connected_advances_id_counter
    (st : ClientState) (pp pn an sn : String) (value : JsonVal)
    (aval : Option (List JsonVal)) (resp : Obj)
    (h : st.connected = false) :
    get_property st pp pn resp =
      ({ st with _id := (st._id + 1) % 1024 }, G3Outcome.notConnected) ∧
    set_property st pp pn value resp =
      ({ st with _id := (st._id + 1) % 1024 }, G3Outcome.notConnected) ∧
    send_action st pp an aval resp =
      ({ st with _id := (st._id + 1) % 1024 }, G3Outcome.notConnected) ∧
    subscribe_signal st pp sn resp =
      ({ st with _id := (st._id + 1) % 1024 }, G3Outcome.notConnected) ∧
    (_generate_ws_id (get_property st pp pn resp).1).2 ≠ (_generate_ws_id st).2 := by
  refine ⟨?_, ?_, ?_, ?_, ?_⟩ <;>
    simp [get_property, set_property, send_action, subscribe_signal,
      _request_property, _request_set_property, _request_action,
      _request_subscribe_signal, _generate_ws_id, _ws_send, h]
  omega

theorem not_connected_advances_id_counter_witness :
    get_property freshClient "system" "time" [] =
      ({ freshClient with _id := (freshClient._id + 1) % 1024 }, G3Outcome.notConnected) :=
  (not_connected_advances_id_counter freshClient "system" "time" "a" "b" JsonVal.jnull
    none [] rfl).1

/-- C8: connect closes any live connection first, so a reconnect behaves
exactly like a connect from a closed socket; a successful attempt leaves
a connection to ws://{address}/websocket/ negotiated with the single
subprotocol g3api; a timed-out attempt raises G3TimeoutError and leaves
the socket not connected. -/
theorem connect_lifecycle (ws : WSState) (addr : String) (o : ConnectAttempt) :
    (ws.connected = true → connect ws addr o = connect closedWS addr o) ∧
    connect ws addr ConnectAttempt.success =
      ({ connected := true, url := some ("ws://" ++ addr ++ "/websocket/"),
         subprotocols := some ["g3api"] }, ConnectResult.ok) ∧
    (connect ws addr ConnectAttempt.timeout).2 = ConnectResult.timeoutError ∧
    (connect ws addr ConnectAttempt.timeout).1.connected = false := by
  cases hc : ws.connected <;>
    simp [connect, wsConnect, ws_url, closedWS, hc]

theorem connect_lifecycle_witness :
    (WSState.mk true none none).connected = true ∧
    connect (WSState.mk true none none) "g3" ConnectAttempt.timeout =
      connect closedWS "g3" ConnectAttempt.timeout :=
  ⟨rfl, (connect_lifecycle (WSState.mk true none none) "g3" ConnectAttempt.timeout).1 rfl⟩

/-- C2 counterexample: on a response without a body key whose id matches
the request id, subscribe_signal raises KeyError instead of treating the
whole envelope as the body. -/
theorem subscribe_signal_no_body_fallback :
    (subscribe_signal connectedClient "recorder" "gaze" [("id", JsonVal.jint 1)]).2 =
      G3Outcome.keyError ∧
    (subscribe_signal connectedClient "recorder" "gaze" [("id", JsonVal.jint 1)]).2 ≠
      G3Outcome.ok (JsonVal.jobj [("id", JsonVal.jint 1)]) := by
  refine ⟨rfl, ?_⟩
  rw [show (subscribe_signal connectedClient "recorder" "gaze" [("id", JsonVal.jint 1)]).2 =
    G3Outcome.keyError from rfl]
  simp

/-- C2 amended: when the response has no body key and its id matches the
request id, get_property, set_property and send_action treat the whole
envelope as the body and return it, while subscribe_signal raises
KeyError on the missing body key. -/
theorem body_fallback_three_of_four
    (st : ClientState) (pp pn an sn : String) (value : JsonVal)
    (aval : Option (List JsonVal)) (resp : Obj)
    (hconn : st.connected = true)
    (hbody : lookupKey resp "body" = none)
    (hid : lookupKey resp "id" = some (JsonVal.jint ((st._id + 1) % 1024)))
    (hei : hasKey resp "error_info" = false)
    (her : hasKey resp "error" = false) :
    (get_property st pp pn resp).2 = G3Outcome.ok (JsonVal.jobj resp) ∧
    (set_property st pp pn value resp).2 = G3Outcome.ok (JsonVal.jobj resp) ∧
    (send_action st pp an aval resp).2 = G3Outcome.ok (JsonVal.jobj resp) ∧
    (subscribe_signal st pp sn resp).2 = G3Outcome.keyError := by
  refine ⟨?_, ?_, ?_, ?_⟩ <;>
    simp [get_property, set_property, send_action, subscribe_signal,
      _request_property, _request_set_property, _request_action,
      _request_subscribe_signal, _generate_ws_id, _ws_send, extractBody,
      pyEqInt, hconn, hbody, hid, hei, her]

theorem body_fallback_three_of_four_witness :
    (get_property connectedClient "system" "time" [("id", JsonVal.jint 1)]).2 =
      G3Outcome.ok (JsonVal.jobj [("id", JsonVal.jint 1)]) :=
  (body_fallback_three_of_four connectedClient "system" "time" "a" "b" JsonVal.jnull
    none [("id", JsonVal.jint 1)] rfl rfl rfl rfl rfl).1

/-- C5: with a matching response id, set_property raises G3ErrorResponse
exactly when the extracted body is the boolean false, and returns any
other body value unchanged, so in particular the integer 0 is returned
without raising. -/
theorem set_property_false_body (st : ClientState) (pp pn : String)
    (value : JsonVal) (resp : Obj) (rid : JsonVal)
    (hconn : st.connected = true)
    (hid : lookupKey resp "id" = some rid)
    (hmatch : pyEqInt rid ((st._id + 1) % 1024) = true) :
    ((set_property st pp pn value resp).2 = G3Outcome.errorResponse ↔
      extractBody resp = JsonVal.jbool false) ∧
    (extractBody resp ≠ JsonVal.jbool false →
      (set_property st pp pn value resp).2 = G3Outcome.ok (extractBody resp)) := by
  simp only [set_property, _request_set_property, _generate_ws_id, _ws_send, hconn,
    if_true, hid, hmatch, Bool.not_true, Bool.false_eq_true, if_false]
  rcases hb : extractBody resp with _ | b | n | s | elems | fields
  · simp
  · cases b <;> simp
  · simp
  · simp
  · simp
  · simp

theorem set_property_false_body_witness :
    ((set_property connectedClient "recorder" "folder" (JsonVal.jstr "x")
        [("id", JsonVal.jint 1), ("body", JsonVal.jint 0)]).2 =
      G3Outcome.ok (JsonVal.jint 0)) ∧
    ((set_property connectedClient "recorder" "folder" (JsonVal.jstr "x")
        [("id", JsonVal.jint 1), ("body", JsonVal.jbool false)]).2 =
      G3Outcome.errorResponse) := by
  constructor
  · have h := set_property_false_body connectedClient "recorder" "folder" (JsonVal.jstr "x")
      [("id", JsonVal.jint 1), ("body", JsonVal.jint 0)] (JsonVal.jint 1) rfl rfl rfl
    have hb : extractBody [("id", JsonVal.jint 1), ("body", JsonVal.jint 0)] =
      JsonVal.jint 0 := rfl
    rw [h.2 (by rw [hb]; simp), hb]
  · have h := set_property_false_body connectedClient "recorder" "folder" (JsonVal.jstr "x")
      [("id", JsonVal.jint 1), ("body", JsonVal.jbool false)] (JsonVal.jint 1) rfl rfl rfl
    exact h.1.mpr rfl

/-- C6 counterexample: a response whose id matches and which carries an
error key without a message key makes send_action raise KeyError while
building the diagnostic, neither raising G3ErrorResponse nor returning
the body. -/
theorem send_action_error_without_message :
    (send_action connectedClient "recorder" "start" none
        [("id", JsonVal.jint 1), ("error", JsonVal.jstr "oops"),
         ("body", JsonVal.jint 5)]).2 = G3Outcome.keyError ∧
    (send_action connectedClient "recorder" "start" none
        [("id", JsonVal.jint 1), ("error", JsonVal.jstr "oops"),
         ("body", JsonVal.jint 5)]).2 ≠ G3Outcome.ok (JsonVal.jint 5) := by
  refine ⟨rfl, ?_⟩
  rw [show (send_action connectedClient "recorder" "start" none
      [("id", JsonVal.jint 1), ("error", JsonVal.jstr "oops"),
       ("body", JsonVal.jint 5)]).2 = G3Outcome.keyError from rfl]
  simp

/-- C6 amended: an id mismatch raises G3InvalidIdError before any error
marker is examined; with a matching id, G3ErrorResponse is raised
exactly when the response carries error_info, or carries error together
with message, or the extracted body is the boolean false, except that a
response carrying error without message raises KeyError instead; with no
markers and a body other than false, the body is returned. -/
theorem send_action_markers (st : ClientState) (pp an : String)
    (aval : Option (List JsonVal)) (resp : Obj) (rid : JsonVal)
    (hconn : st.connected = true)
    (hid : lookupKey resp "id" = some rid) :
    (pyEqInt rid ((st._id + 1) % 1024) = false →
      (send_action st pp an aval resp).2 = G3Outcome.invalidId) ∧
    (pyEqInt rid ((st._id + 1) % 1024) = true →
      (hasKey resp "error_info" = false → hasKey resp "error" = true →
        hasKey resp "message" = false →
        (send_action st pp an aval resp).2 = G3Outcome.keyError) ∧
      ((hasKey resp "error" = true → hasKey resp "message" = true) →
        ((send_action st pp an aval resp).2 = G3Outcome.errorResponse ↔
          (hasKey resp "error_info" = true ∨ hasKey resp "error" = true ∨
            extractBody resp = JsonVal.jbool false))) ∧
      (hasKey resp "error_info" = false → hasKey resp "error" = false →
        extractBody resp ≠ JsonVal.jbool false →
        (send_action st pp an aval resp).2 = G3Outcome.ok (extractBody resp))) := by
  simp only [send_action, _request_action, _generate_ws_id, _ws_send, hconn,
    if_true, hid]
  constructor
  · intro hm
    simp [hm]
  · intro hm
    simp only [hm, Bool.not_true, Bool.false_eq_true, if_false]
    refine ⟨?_, ?_, ?_⟩
    · intro h1 h2 h3
      simp [h1, h2, h3]
    · intro himp
      by_cases h1 : hasKey resp "error_info" = true
      · simp [h1]
      · rw [Bool.not_eq_true] at h1
        by_cases h2 : hasKey resp "error" = true
        · simp [h1, h2, himp h2]
        · rw [Bool.not_eq_true] at h2
          rcases hb : extractBody resp with _ | b | n | s | elems | fields
          · simp [h1, h2, hb]
          · cases b <;> simp [h1, h2, hb]
          · simp [h1, h2, hb]
          · simp [h1, h2, hb]
          · simp [h1, h2, hb]
          · simp [h1, h2, hb]
    · intro h1 h2 h3
      rcases hb : extractBody resp with _ | b | n | s | elems | fields
      · simp [h1, h2, hb]
      · cases b
        · exact absurd hb h3
        · simp [h1, h2, hb]
      · simp [h1, h2, hb]
      · simp [h1, h2, hb]
      · simp [h1, h2, hb]
      · simp [h1, h2, hb]

theorem send_action_markers_witness :
    ((send_action connectedClient "recorder" "start" none
        [("id", JsonVal.jint 1), ("error", JsonVal.jstr "e"),
         ("message", JsonVal.jstr "m")]).2 = G3Outcome.errorResponse) := by
  have h := send_action_markers connectedClient "recorder" "start" none
    [("id", JsonVal.jint 1), ("error", JsonVal.jstr "e"), ("message", JsonVal.jstr "m")]
    (JsonVal.jint 1) rfl rfl
  exact ((h.2 rfl).2.1 (fun _ => rfl)).mpr (Or.inr (Or.inl rfl))

/-- The address loop leaves the servers list unchanged, inserts the ipv4
addresses first-seen into the ips list and the remaining addresses
first-seen into the ipv6 list. -/
theorem addIps_eq (isV4 : String → Bool) (l : List String) (st : ListenerState) :
    addIps isV4 st l =
      { ips := (l.filter isV4).foldl firstSeenInsert st.ips,
        ipv6s := (l.filter (fun ip => !isV4 ip)).foldl firstSeenInsert st.ipv6s,
        servers := st.servers } := by
  induction l generalizing st with
  | nil => simp [addIps]
  | cons ip rest ih =>
    by_cases h4 : isV4 ip = true
    · by_cases hc : ip ∈ st.ips
      · simp [addIps, h4, hc, ih, firstSeenInsert]
      · simp [addIps, h4, hc, ih, firstSeenInsert]
    · rw [Bool.not_eq_true] at h4
      by_cases hc : ip ∈ st.ipv6s
      · simp [addIps, h4, hc, ih, firstSeenInsert]
      · simp [addIps, h4, hc, ih, firstSeenInsert]

/-- A whole scan appends the dot-stripped server name of every
announcement to the servers list and accumulates the announced addresses
first-seen into the ips and ipv6 lists. -/
theorem runScan_eq (isV4 : String → Bool) (anns : List Announcement) (st : ListenerState) :
    runScan isV4 st anns =
      { ips := (((anns.map Announcement.addrs).flatten).filter isV4).foldl
          firstSeenInsert st.ips,
        ipv6s := (((anns.map Announcement.addrs).flatten).filter
          (fun ip => !isV4 ip)).foldl firstSeenInsert st.ipv6s,
        servers := st.servers ++ anns.map (fun a => stripDot a.server) } := by
  induction anns generalizing st with
  | nil => simp [runScan]
  | cons a rest ih =>
    have h1 : runScan isV4 st (a :: rest) = runScan isV4 (add_service isV4 st a) rest := by
      simp [runScan]
    rw [h1, ih, add_service, addIps_eq]
    simp [List.filter_append, List.foldl_append]

/-- Folding firstSeenInsert preserves the no-duplicates invariant. -/
theorem foldl_firstSeenInsert_nodup (xs : List String) (acc : List String)
    (h : acc.Nodup) : (xs.foldl firstSeenInsert acc).Nodup := by
  induction xs generalizing acc with
  | nil => simpa using h
  | cons x rest ih =>
    rw [List.foldl_cons]
    apply ih
    by_cases hc : x ∈ acc
    · simpa [firstSeenInsert, hc] using h
    · simp [firstSeenInsert, hc, List.nodup_append, h]

/-- C4 counterexample: two announcements with the same hostname leave a
duplicate in the servers list, so the hostname collection is not an
ordered set. -/
theorem listener_hostname_duplicates :
    (runScan (fun _ => false) emptyListener
        [{ server := "host", addrs := [] }, { server := "host", addrs := [] }]).servers =
      ["host", "host"] ∧
    ¬ (runScan (fun _ => false) emptyListener
        [{ server := "host", addrs := [] }, { server := "host", addrs := [] }]).servers.Nodup := by
  refine ⟨rfl, ?_⟩
  rw [show (runScan (fun _ => false) emptyListener
      [{ server := "host", addrs := [] }, { server := "host", addrs := [] }]).servers =
    ["host", "host"] from rfl]
  decide

/-- C4 amended: starting from pristine listener state, the ipv4 and ipv6
lists are duplicate-free and hold the announced addresses in first-seen
order, while the hostname list records every announcement in arrival
order, duplicates included. -/
theorem listener_accumulation (isV4 : String → Bool) (anns : List Announcement) :
    (runScan isV4 emptyListener anns).ips.Nodup ∧
    (runScan isV4 emptyListener anns).ipv6s.Nodup ∧
    (runScan isV4 emptyListener anns).ips =
      firstSeenDedup (((anns.map Announcement.addrs).flatten).filter isV4) ∧
    (runScan isV4 emptyListener anns).ipv6s =
      firstSeenDedup (((anns.map Announcement.addrs).flatten).filter (fun ip => !isV4 ip)) ∧
    (runScan isV4 emptyListener anns).servers =
      anns.map (fun a => stripDot a.server) := by
  rw [runScan_eq]
  exact ⟨foldl_firstSeenInsert_nodup _ _ (by simp [emptyListener]),
    foldl_firstSeenInsert_nodup _ _ (by simp [emptyListener]),
    rfl, rfl, by simp [emptyListener]⟩

/-- C3 counterexample: with the probe failing and zero announcements
during the call, a discovery call that inherits a hostname accumulated
by an earlier call returns that hostname, while the same call on pristine
state reports not-found, so announcements of one call influence a later
call. -/
theorem discovery_state_persists :
    (discover_g3 (fun _ => false) false
        { ips := [], ipv6s := [], servers := ["stale-host"] } []).1 = some "stale-host" ∧
    (discover_g3 (fun _ => false) false emptyListener []).1 = none :=
  ⟨rfl, rfl⟩

/-- C3 amended: the listener lists are class-level attributes shared by
all instances and never cleared, so discovery state persists between
calls: a later call whose scan sees no announcements still returns the
last hostname accumulated by earlier calls. -/
theorem discovery_uses_inherited_state (isV4 : String → Bool)
    (cs : ListenerState) (s : String)
    (h : cs.servers.getLast? = some s) :
    (discover_g3 isV4 false cs []).1 = some s := by
  simp [discover_g3, runScan, h]

theorem discovery_uses_inherited_state_witness :
    (discover_g3 (fun _ => false) false
        { ips := [], ipv6s := [], servers := ["earlier"] } []).1 = some "earlier" :=
  discovery_uses_inherited_state (fun _ => false)
    { ips := [], ipv6s := [], servers := ["earlier"] } "earlier" rfl

/-- C7 counterexample: a discovery call with a failing probe and zero
discoveries during its scan does not report not-found when the
class-level state inherited from earlier calls holds a hostname. -/
theorem discovery_stale_not_found_violation :
    (discover_g3 (fun _ => false) false
        { ips := [], ipv6s := [], servers := ["cached"] } []).1 = some "cached" ∧
    some "cached" ≠ (none : Option String) :=
  ⟨rfl, by simp⟩

/-- C7 amended: when the probe fails, the selection policy applies to the
accumulated listener lists, which include entries inherited from earlier
calls through the class-level state: last hostname of the list when any
is recorded, else last ipv4 address, else not-found; only for a call
starting from pristine state do these lists coincide with the
announcements of the scan. -/
theorem discovery_selection_policy (isV4 : String → Bool)
    (cs : ListenerState) (anns : List Announcement) :
    ((runScan isV4 cs anns).servers ≠ [] →
      (discover_g3 isV4 false cs anns).1 = (runScan isV4 cs anns).servers.getLast?) ∧
    ((runScan isV4 cs anns).servers = [] → (runScan isV4 cs anns).ips ≠ [] →
      (discover_g3 isV4 false cs anns).1 = (runScan isV4 cs anns).ips.getLast?) ∧
    ((runScan isV4 cs anns).servers = [] → (runScan isV4 cs anns).ips = [] →
      (discover_g3 isV4 false cs anns).1 = none) := by
  rcases hs : (runScan isV4 cs anns).servers.getLast? with _ | s
  · rw [List.getLast?_eq_none_iff] at hs
    rcases hi : (runScan isV4 cs anns).ips.getLast? with _ | ip
    · rw [List.getLast?_eq_none_iff] at hi
      refine ⟨fun hne => absurd hs hne, fun _ _ => ?_, fun _ _ => ?_⟩ <;>
        simp [discover_g3, hs, hi, List.getLast?_eq_none_iff]
    · refine ⟨fun hne => absurd hs hne, fun _ _ => ?_, fun _ hi2 => ?_⟩
      · simp [discover_g3, hs, hi, List.getLast?_eq_none_iff]
      · rw [hi2] at hi
        simp at hi
  · have hne : (runScan isV4 cs anns).servers ≠ [] := by
      intro h0
      rw [h0] at hs
      simp at hs
    refine ⟨fun _ => ?_, fun h0 _ => absurd h0 hne, fun h0 _ => absurd h0 hne⟩
    simp [discover_g3, hs]

theorem discovery_selection_policy_witness :
    (runScan (fun _ => false) emptyListener [{ server := "g3-abc.", addrs := [] }]).servers ≠ [] ∧
    (discover_g3 (fun _ => false) false emptyListener
        [{ server := "g3-abc.", addrs := [] }]).1 =
      (runScan (fun _ => false) emptyListener
        [{ server := "g3-abc.", addrs := [] }]).servers.getLast? :=
  ⟨by decide,
   (discovery_selection_policy (fun _ => false) emptyListener
      [{ server := "g3-abc.", addrs := [] }]).1 (by decide)⟩

end TobiiG3
